import Mathlib

/-!
Verification of the flash-backed configuration/profile store of the
Pixels-Dice firmware, as a shallow embedding of the commit paths in
`src/drivers_nrf/flash.cpp` and `src/config/settings.cpp`.

Machine integers are modelled as `Nat` (the embedded code only compares and
copies them; no overflowing arithmetic occurs on the modelled paths).
Floating-point tuning parameters are modelled as `Rat` stand-ins for the
float literals: the modelled code only assigns and copies them, never
computes with them, so only their identity matters.

The asynchronous callback chains are single-threaded and every hardware
completion fires exactly once, so a whole commit is a deterministic function
of its environment (which allocations succeed, which flash operations
succeed). Each commit path is embedded as a function from that environment
to its immediate return value, the linear trace of observable events, and
the final flash state.
-/

namespace DiceFirmware

/-- Bytes are modelled as naturals. -/
abbrev Byte := Nat

/-- `Core::float3`, the per-face normal vector type. -/
structure Float3 where
  x : Rat
  y : Rat
  z : Rat
  deriving DecidableEq, Repr

/-- From settings.cpp: `#define SETTINGS_VALID_KEY (0x15E77165)`. -/
def SETTINGS_VALID_KEY : Nat := 0x15E77165

/-- From settings.cpp: `#define SETTINGS_VERSION 3`. -/
def SETTINGS_VERSION : Nat := 3

/-- From settings.cpp: `#define SETTINGS_PAGE_COUNT 1`. -/
def SETTINGS_PAGE_COUNT : Nat := 1

/-- Modelled from the spec: the `Settings` struct itself (settings.h is not
among the provided sources); field list and order follow section 3 of the
spec and every field use in settings.cpp. -/
structure SettingsRecord where
  headMarker : Nat
  version : Nat
  name : List Byte
  designAndColor : Nat
  currentBehaviorIndex : Nat
  jerkClamp : Rat
  sigmaDecay : Rat
  startMovingThreshold : Rat
  stopMovingThreshold : Rat
  faceThreshold : Rat
  fallingThreshold : Rat
  shockThreshold : Rat
  batteryLow : Rat
  batteryHigh : Rat
  accDecay : Rat
  heatUpRate : Rat
  coolDownRate : Rat
  faceNormals : List Float3
  faceToLEDLookup : List Byte
  faceLayoutLookupIndex : Nat
  tailMarker : Nat
  deriving DecidableEq, Repr

/-- Erased NOR flash reads back as all 0xFF bytes; for validity only the
marker and version fields matter, the remaining fields are fixed junk. -/
def erasedSettings : SettingsRecord :=
  { headMarker := 0xFFFFFFFF
    version := 0xFFFFFFFF
    name := []
    designAndColor := 0xFF
    currentBehaviorIndex := 0xFF
    jerkClamp := 0
    sigmaDecay := 0
    startMovingThreshold := 0
    stopMovingThreshold := 0
    faceThreshold := 0
    fallingThreshold := 0
    shockThreshold := 0
    batteryLow := 0
    batteryHigh := 0
    accDecay := 0
    heatUpRate := 0
    coolDownRate := 0
    faceNormals := []
    faceToLEDLookup := []
    faceLayoutLookupIndex := 0xFF
    tailMarker := 0xFFFFFFFF }

/-- Modelled from the spec: the board descriptor collaborator
(`BoardManager::getBoard()`, `DiceVariants::getDefaultNormals/getDefaultLookup`
are not among the provided sources); it supplies a face count and canonical
per-face calibration defaults. -/
structure Board where
  ledCount : Nat
  defaultNormals : List Float3
  defaultLookup : List Byte
  deriving DecidableEq, Repr

/-- Modelled from the spec: `DiceVariants::DesignAndColor_Generic`
(dice_variants.h is not among the provided sources); only its identity as
the default appearance selector matters. -/
def DesignAndColor_Generic : Nat := 1

namespace SettingsManager

/-- settings.cpp `checkValid`: both markers must equal the magic key and the
version must equal the current version. -/
def checkValid (s : SettingsRecord) : Bool :=
  s.headMarker == SETTINGS_VALID_KEY &&
    s.version == SETTINGS_VERSION &&
    s.tailMarker == SETTINGS_VALID_KEY

/-- settings.cpp `getSettings`: returns the record only when valid,
otherwise the explicit invalid result (nullptr). -/
def getSettings (stored : SettingsRecord) : Option SettingsRecord :=
  if checkValid stored then some stored else none

/-- The default device name "IAMADIE" written by `setDefaultParameters`. -/
def defaultNameBytes : List Byte := [73, 65, 77, 65, 68, 73, 69]

/-- settings.cpp `setDefaultParameters`: overwrites the name, the appearance
selector, the behavior index and the twelve tuning parameters; touches no
other field. -/
def setDefaultParameters (s : SettingsRecord) : SettingsRecord :=
  { s with
      name := defaultNameBytes
      designAndColor := DesignAndColor_Generic
      currentBehaviorIndex := 0
      jerkClamp := 10
      sigmaDecay := 1/2
      startMovingThreshold := 5
      stopMovingThreshold := 1/2
      faceThreshold := 49/50
      fallingThreshold := 1/10
      shockThreshold := 15/2
      batteryLow := 3
      batteryHigh := 4
      accDecay := 9/10
      heatUpRate := 1/2500
      coolDownRate := 199/200 }

/-- memcpy of `n` elements into the head of a fixed array: the first `n`
entries come from the source, the rest keep their previous contents. -/
def copyHead (dst src : List α) (n : Nat) : List α :=
  src.take n ++ dst.drop n

/-- settings.cpp `setDefaultCalibrationData`: copies `ledCount` normals and
lookup entries from the board defaults and zeroes the layout index. -/
def setDefaultCalibrationData (board : Board) (s : SettingsRecord) : SettingsRecord :=
  { s with
      faceNormals := copyHead s.faceNormals board.defaultNormals board.ledCount
      faceToLEDLookup := copyHead s.faceToLEDLookup board.defaultLookup board.ledCount
      faceLayoutLookupIndex := 0 }

/-- settings.cpp `setDefaults`: stamps markers and version, then default
parameters and default calibration data. -/
def setDefaults (board : Board) (s : SettingsRecord) : SettingsRecord :=
  let s1 := { s with headMarker := SETTINGS_VALID_KEY, version := SETTINGS_VERSION }
  let s2 := setDefaultParameters s1
  let s3 := setDefaultCalibrationData board s2
  { s3 with tailMarker := SETTINGS_VALID_KEY }

/-- settings.cpp `programDefaults`: the record handed to `writeToFlash`.
`init` stands for the uninitialized stack local `Settings defaults`. -/
def programDefaultsRecord (board : Board) (init : SettingsRecord) : SettingsRecord :=
  setDefaults board init

/-- settings.cpp `programDefaultParameters`: the record handed to
`writeToFlash`. The initial `setDefaults` result is immediately and fully
overwritten by the `memcpy` of the whole struct from flash (`stored`), so
only the final `setDefaultParameters` survives. `init` stands for the
uninitialized stack local. -/
def programDefaultParametersRecord (board : Board) (init stored : SettingsRecord) :
    SettingsRecord :=
  let settingsCopy := setDefaults board init
  let settingsCopy := stored
  setDefaultParameters settingsCopy

/-- settings.cpp `programCalibrationData`: the record handed to
`writeToFlash`. As in `programDefaultParameters`, the `setDefaults` result
is fully overwritten by the memcpy from flash before the new normals and
lookup entries are copied in. -/
def programCalibrationDataRecord (board : Board) (init stored : SettingsRecord)
    (newNormals : List Float3) (faceLayoutLookupIndex : Nat)
    (newFaceToLEDLookup : List Byte) (count : Nat) : SettingsRecord :=
  let settingsCopy := setDefaults board init
  let settingsCopy := stored
  { settingsCopy with
      faceNormals := copyHead settingsCopy.faceNormals newNormals count
      faceLayoutLookupIndex := faceLayoutLookupIndex
      faceToLEDLookup := copyHead settingsCopy.faceToLEDLookup newFaceToLEDLookup count }

/-- settings.cpp `programDesignAndColor`: copy the stored record, change the
appearance selector. -/
def programDesignAndColorRecord (stored : SettingsRecord) (design : Nat) : SettingsRecord :=
  { stored with designAndColor := design }

/-- settings.cpp `programCurrentBehavior`: copy the stored record, change the
behavior index. -/
def programCurrentBehaviorRecord (stored : SettingsRecord) (behaviorIndex : Nat) :
    SettingsRecord :=
  { stored with currentBehaviorIndex := behaviorIndex }

/-- settings.cpp `programName`: copy the stored record, strcpy the new name. -/
def programNameRecord (stored : SettingsRecord) (newName : List Byte) : SettingsRecord :=
  { stored with name := newName }

end SettingsManager

/-- Observable events of a commit, in the order the single-threaded
execution produces them: heap staging, lifecycle notifications, flash
operations, buffer releases, the Bluetooth side effect and the terminal
user callback. -/
inductive Ev where
  | allocSettings
  | allocProfile
  | createDefaultProfile
  | notifyBegin
  | eraseFlash (pages : Nat)
  | writeSettings
  | writeProfile
  | notifyEnd
  | freeSettings
  | freeProfileHeap
  | freeProfileDefault
  | resetOnDisconnect
  | userCallback (ok : Bool)
  deriving DecidableEq, Repr

/-- Heap staging and release events (malloc/free/createDefault/destroyDefault). -/
def Ev.isMemoryEv : Ev → Bool
  | .allocSettings => true
  | .allocProfile => true
  | .createDefaultProfile => true
  | .freeSettings => true
  | .freeProfileHeap => true
  | .freeProfileDefault => true
  | _ => false

namespace Flash

/-- flash.cpp `bytesToPages`: round a byte count up to erase pages. -/
def bytesToPages (pageSize size : Nat) : Nat :=
  (size + pageSize - 1) / pageSize

/-- flash.cpp `getFlashByteSize`: round a byte count up to a multiple of the
erase page size. -/
def getFlashByteSize (pageSize totalDataByteSize : Nat) : Nat :=
  pageSize * ((totalDataByteSize + pageSize - 1) / pageSize)

/-- flash.cpp `programFlash`: capacity check, begin notification, erase of
the span covering settings plus profile, then the callback chain writing
settings then profile, notifying end and invoking the terminal callback
`onProgramFinished`. `usable` is `getUsableBytes()`, `sizeofSettings` is
`sizeof(Settings)`; `eraseOk`, `writeSettingsOk`, `writeProfileOk` are the
hardware completion results of the three operations. Returns the immediate
return value and the full event trace. -/
def programFlash (usable pageSize sizeofSettings profileSize : Nat)
    (eraseOk writeSettingsOk writeProfileOk : Bool)
    (onProgramFinished : Bool → List Ev) : Bool × List Ev :=
  if profileSize < usable then
    let totalSize := profileSize + sizeofSettings
    let flashSize := getFlashByteSize pageSize totalSize
    let pageCount := bytesToPages pageSize flashSize
    let tail :=
      if eraseOk then
        Ev.writeSettings ::
          (if writeSettingsOk then
            Ev.writeProfile :: Ev.notifyEnd :: onProgramFinished writeProfileOk
          else
            Ev.notifyEnd :: onProgramFinished false)
      else
        Ev.notifyEnd :: onProgramFinished false
    (true, Ev.notifyBegin :: Ev.eraseFlash pageCount :: tail)
  else
    (false, [])

/-- The two flash regions managed by the store. `none` models an erased or
indeterminate region. -/
structure FlashRegions where
  settingsRegion : Option SettingsRecord
  profileRegion : Option (List Byte)
  deriving DecidableEq, Repr

/-- flash.cpp `programSettings`: stage a heap copy of the settings, stage the
profile (a malloc-ed buffer when the current profile is valid and the
allocation succeeds, otherwise a synthesized default profile), then run
`programFlash`; the terminal callback releases both buffers, refreshes the
profile data on success and reports the outcome.

The malloc-ed profile buffer is never filled from the current profile region
(flash.cpp line 270 allocates it, no memcpy follows), so its contents are the
arbitrary prior heap contents, modelled by the `heapJunk` parameter, and that
is what a successful commit writes to the profile region.

Returns (immediate return value, event trace, final flash state). -/
def programSettingsRun (usable pageSize sizeofSettings : Nat)
    (newSettings : SettingsRecord)
    (settingsAllocOk profileValid profileAllocOk : Bool)
    (heapJunk defaultProfile : List Byte)
    (st : FlashRegions)
    (eraseOk writeSettingsOk writeProfileOk refreshOk : Bool) :
    Bool × List Ev × FlashRegions :=
  if settingsAllocOk then
    let staging :=
      if profileValid then
        if profileAllocOk then
          ([Ev.allocSettings, Ev.allocProfile], heapJunk, Ev.freeProfileHeap)
        else
          ([Ev.allocSettings, Ev.createDefaultProfile], defaultProfile, Ev.freeProfileDefault)
      else
        ([Ev.allocSettings, Ev.createDefaultProfile], defaultProfile, Ev.freeProfileDefault)
    let stagingEvs := staging.1
    let profileCopy := staging.2.1
    let freeProfileEv := staging.2.2
    let finish : Bool → List Ev := fun result =>
      [Ev.freeSettings, freeProfileEv, Ev.userCallback (result && refreshOk)]
    let run := programFlash usable pageSize sizeofSettings profileCopy.length
      eraseOk writeSettingsOk writeProfileOk finish
    let finalSt : FlashRegions :=
      if run.1 then
        if eraseOk then
          if writeSettingsOk then
            if writeProfileOk then
              { settingsRegion := some newSettings, profileRegion := some profileCopy }
            else
              { settingsRegion := some newSettings, profileRegion := none }
          else
            { settingsRegion := none, profileRegion := none }
        else
          { settingsRegion := none, profileRegion := none }
      else
        st
    (run.1, stagingEvs ++ run.2, finalSt)
  else
    (false, [], st)

end Flash

namespace SettingsManager

/-- settings.cpp `writeToFlash` with the completion callback `k` of the
calling mutation: begin notifications, heap copy of the record, erase of the
settings page, write of the record, then `finishWrite` which releases the
copy, notifies end and invokes the callback. Returns the event trace and the
final content of the settings region (`erasedSettings` when an attempted
erase or write left it without a properly written record). -/
def writeToFlashRunWith (sourceSettings stored : SettingsRecord)
    (eraseOk writeOk : Bool) (k : Bool → List Ev) : List Ev × SettingsRecord :=
  let finishWrite : Bool → List Ev := fun result =>
    Ev.freeSettings :: Ev.notifyEnd :: k result
  if eraseOk then
    if writeOk then
      (Ev.notifyBegin :: Ev.allocSettings :: Ev.eraseFlash SETTINGS_PAGE_COUNT ::
        Ev.writeSettings :: finishWrite true, sourceSettings)
    else
      (Ev.notifyBegin :: Ev.allocSettings :: Ev.eraseFlash SETTINGS_PAGE_COUNT ::
        Ev.writeSettings :: finishWrite false, erasedSettings)
  else
    (Ev.notifyBegin :: Ev.allocSettings :: Ev.eraseFlash SETTINGS_PAGE_COUNT ::
      finishWrite false, erasedSettings)

/-- settings.cpp `writeToFlash` called with a plain completion callback. -/
def writeToFlashRun (sourceSettings stored : SettingsRecord)
    (eraseOk writeOk : Bool) : List Ev × SettingsRecord :=
  writeToFlashRunWith sourceSettings stored eraseOk writeOk
    (fun result => [Ev.userCallback result])

/-- settings.cpp `programDesignAndColor`: build the record and commit it. -/
def programDesignAndColorRun (stored : SettingsRecord) (design : Nat)
    (eraseOk writeOk : Bool) : List Ev × SettingsRecord :=
  writeToFlashRun (programDesignAndColorRecord stored design) stored eraseOk writeOk

/-- settings.cpp `programCurrentBehavior`: build the record and commit it. -/
def programCurrentBehaviorRun (stored : SettingsRecord) (behaviorIndex : Nat)
    (eraseOk writeOk : Bool) : List Ev × SettingsRecord :=
  writeToFlashRun (programCurrentBehaviorRecord stored behaviorIndex) stored eraseOk writeOk

/-- settings.cpp `programDefaultParameters`: build the record and commit it. -/
def programDefaultParametersRun (board : Board) (init stored : SettingsRecord)
    (eraseOk writeOk : Bool) : List Ev × SettingsRecord :=
  writeToFlashRun (programDefaultParametersRecord board init stored) stored eraseOk writeOk

/-- settings.cpp `programCalibrationData`: build the record and commit it. -/
def programCalibrationDataRun (board : Board) (init stored : SettingsRecord)
    (newNormals : List Float3) (faceLayoutLookupIndex : Nat)
    (newFaceToLEDLookup : List Byte) (count : Nat)
    (eraseOk writeOk : Bool) : List Ev × SettingsRecord :=
  writeToFlashRun
    (programCalibrationDataRecord board init stored newNormals faceLayoutLookupIndex
      newFaceToLEDLookup count)
    stored eraseOk writeOk

/-- settings.cpp `programDefaults`: build the default record and commit it. -/
def programDefaultsRun (board : Board) (init stored : SettingsRecord)
    (eraseOk writeOk : Bool) : List Ev × SettingsRecord :=
  writeToFlashRun (programDefaultsRecord board init) stored eraseOk writeOk

/-- settings.cpp `programName`: build the record and commit it with the
wrapped completion callback that requests a Bluetooth reset-on-disconnect
before invoking the original callback, on success and on failure alike. -/
def programNameRun (stored : SettingsRecord) (newName : List Byte)
    (eraseOk writeOk : Bool) : List Ev × SettingsRecord :=
  writeToFlashRunWith (programNameRecord stored newName) stored eraseOk writeOk
    (fun result => [Ev.resetOnDisconnect, Ev.userCallback result])

end SettingsManager

/-- A concrete record with correct markers and version, used to instantiate
hypotheses at a concrete input. -/
def sampleValidSettings : SettingsRecord :=
  { erasedSettings with
      headMarker := SETTINGS_VALID_KEY
      version := SETTINGS_VERSION
      tailMarker := SETTINGS_VALID_KEY }

/-- A concrete record whose markers are correct but whose version is the
stale value 2 (current version is 3). -/
def staleVersionSettings : SettingsRecord :=
  { erasedSettings with
      headMarker := SETTINGS_VALID_KEY
      version := 2
      tailMarker := SETTINGS_VALID_KEY }

/-- Flipping one bit always changes a natural number. -/
lemma xor_two_pow_ne (x i : Nat) : x ^^^ 2 ^ i ≠ x := by
  intro h
  have h0 : x ^^^ (x ^^^ 2 ^ i) = x ^^^ x := by rw [h]
  rw [← Nat.xor_assoc, Nat.xor_self, Nat.zero_xor] at h0
  exact absurd h0 (pow_ne_zero i (by decide))

/-- C6: `checkValid` holds exactly when both markers equal the magic constant
and the version equals the current format version; consequently, for a valid
record, flipping any single bit of `headMarker`, `tailMarker` or `version`
makes `checkValid` false. -/
theorem checkValid_iff_markers_and_version :
    (∀ s : SettingsRecord,
        SettingsManager.checkValid s = true ↔
          s.headMarker = SETTINGS_VALID_KEY ∧ s.version = SETTINGS_VERSION ∧
            s.tailMarker = SETTINGS_VALID_KEY) ∧
    (∀ (s : SettingsRecord) (i : Nat), i < 32 →
        SettingsManager.checkValid s = true →
        SettingsManager.checkValid { s with headMarker := s.headMarker ^^^ 2 ^ i } = false ∧
          SettingsManager.checkValid { s with tailMarker := s.tailMarker ^^^ 2 ^ i } = false ∧
          SettingsManager.checkValid { s with version := s.version ^^^ 2 ^ i } = false) := by
  constructor
  · intro s
    simp [SettingsManager.checkValid, and_assoc]
  · intro s i _ hv
    simp only [SettingsManager.checkValid, Bool.and_eq_true, beq_iff_eq] at hv
    refine ⟨?_, ?_, ?_⟩ <;>
      simp [SettingsManager.checkValid, hv.1.1, hv.1.2, hv.2, xor_two_pow_ne]

/-- Witness for C6 at a concrete valid record and bit index 0. -/
theorem checkValid_iff_markers_and_version_witness :
    ((0:Nat) < 32 ∧ SettingsManager.checkValid sampleValidSettings = true) ∧
      (SettingsManager.checkValid
          { sampleValidSettings with
              headMarker := sampleValidSettings.headMarker ^^^ 2 ^ 0 } = false ∧
        SettingsManager.checkValid
          { sampleValidSettings with
              tailMarker := sampleValidSettings.tailMarker ^^^ 2 ^ 0 } = false ∧
        SettingsManager.checkValid
          { sampleValidSettings with
              version := sampleValidSettings.version ^^^ 2 ^ 0 } = false) :=
  ⟨⟨by decide, by decide⟩,
    checkValid_iff_markers_and_version.2 sampleValidSettings 0 (by decide) (by decide)⟩

/-- C9: `programDefaultParameters` hands the commit path a record whose name,
appearance selector, behavior index and all twelve tuning parameters are the
firmware defaults, while the calibration data (face normals, face-to-LED
lookup, layout lookup index) — and the markers and version — are taken from
the currently stored record. -/
theorem programDefaultParameters_resets_and_preserves
    (board : Board) (init stored : SettingsRecord) :
    (SettingsManager.programDefaultParametersRecord board init stored).name =
        SettingsManager.defaultNameBytes ∧
    (SettingsManager.programDefaultParametersRecord board init stored).designAndColor =
        DesignAndColor_Generic ∧
    (SettingsManager.programDefaultParametersRecord board init stored).currentBehaviorIndex = 0 ∧
    (SettingsManager.programDefaultParametersRecord board init stored).jerkClamp = 10 ∧
    (SettingsManager.programDefaultParametersRecord board init stored).sigmaDecay = 1/2 ∧
    (SettingsManager.programDefaultParametersRecord board init stored).startMovingThreshold = 5 ∧
    (SettingsManager.programDefaultParametersRecord board init stored).stopMovingThreshold = 1/2 ∧
    (SettingsManager.programDefaultParametersRecord board init stored).faceThreshold = 49/50 ∧
    (SettingsManager.programDefaultParametersRecord board init stored).fallingThreshold = 1/10 ∧
    (SettingsManager.programDefaultParametersRecord board init stored).shockThreshold = 15/2 ∧
    (SettingsManager.programDefaultParametersRecord board init stored).batteryLow = 3 ∧
    (SettingsManager.programDefaultParametersRecord board init stored).batteryHigh = 4 ∧
    (SettingsManager.programDefaultParametersRecord board init stored).accDecay = 9/10 ∧
    (SettingsManager.programDefaultParametersRecord board init stored).heatUpRate = 1/2500 ∧
    (SettingsManager.programDefaultParametersRecord board init stored).coolDownRate = 199/200 ∧
    (SettingsManager.programDefaultParametersRecord board init stored).faceNormals =
        stored.faceNormals ∧
    (SettingsManager.programDefaultParametersRecord board init stored).faceToLEDLookup =
        stored.faceToLEDLookup ∧
    (SettingsManager.programDefaultParametersRecord board init stored).faceLayoutLookupIndex =
        stored.faceLayoutLookupIndex ∧
    (SettingsManager.programDefaultParametersRecord board init stored).headMarker =
        stored.headMarker ∧
    (SettingsManager.programDefaultParametersRecord board init stored).version =
        stored.version ∧
    (SettingsManager.programDefaultParametersRecord board init stored).tailMarker =
        stored.tailMarker := by
  refine ⟨rfl, rfl, rfl, rfl, rfl, rfl, rfl, rfl, rfl, rfl, rfl, rfl, rfl, rfl, rfl,
    rfl, rfl, rfl, rfl, rfl, rfl⟩

/-- C10: whatever the commit outcome, `programName` requests a Bluetooth
reset-on-disconnect immediately before invoking the completion callback of
the caller, and no other single-field mutation ever emits that request. -/
theorem programName_resets_bluetooth_on_completion
    (board : Board) (init stored : SettingsRecord) (newName : List Byte)
    (design behaviorIndex : Nat) (newNormals : List Float3)
    (faceLayoutLookupIndex : Nat) (newFaceToLEDLookup : List Byte) (count : Nat)
    (eraseOk writeOk : Bool) :
    (SettingsManager.programNameRun stored newName eraseOk writeOk).1 =
      (SettingsManager.programNameRun stored newName eraseOk writeOk).1.dropLast.dropLast ++
        [Ev.resetOnDisconnect, Ev.userCallback (eraseOk && writeOk)] ∧
    (SettingsManager.programDesignAndColorRun stored design eraseOk writeOk).1.contains
        Ev.resetOnDisconnect = false ∧
    (SettingsManager.programCurrentBehaviorRun stored behaviorIndex eraseOk writeOk).1.contains
        Ev.resetOnDisconnect = false ∧
    (SettingsManager.programDefaultParametersRun board init stored eraseOk writeOk).1.contains
        Ev.resetOnDisconnect = false ∧
    (SettingsManager.programCalibrationDataRun board init stored newNormals
          faceLayoutLookupIndex newFaceToLEDLookup count eraseOk writeOk).1.contains
        Ev.resetOnDisconnect = false ∧
    (SettingsManager.programDefaultsRun board init stored eraseOk writeOk).1.contains
        Ev.resetOnDisconnect = false := by
  cases eraseOk <;> cases writeOk <;>
    exact ⟨rfl, rfl, rfl, rfl, rfl, rfl⟩

/-- C8 amended: every facade mutation builds its record by copying the
currently stored record (or, for `programDefaults`, by synthesizing the
default record); none of them changes the markers or version, so as long as
the stored record is valid, every record handed to the commit path carries
valid markers and the current version (`programDefaults` unconditionally so). -/
theorem facade_records_valid_when_stored_valid
    (board : Board) (init stored : SettingsRecord) (newName : List Byte)
    (design behaviorIndex : Nat) (newNormals : List Float3)
    (faceLayoutLookupIndex : Nat) (newFaceToLEDLookup : List Byte) (count : Nat)
    (hv : SettingsManager.checkValid stored = true) :
    SettingsManager.checkValid (SettingsManager.programDesignAndColorRecord stored design) =
        true ∧
    SettingsManager.checkValid
        (SettingsManager.programCurrentBehaviorRecord stored behaviorIndex) = true ∧
    SettingsManager.checkValid (SettingsManager.programNameRecord stored newName) = true ∧
    SettingsManager.checkValid
        (SettingsManager.programDefaultParametersRecord board init stored) = true ∧
    SettingsManager.checkValid
        (SettingsManager.programCalibrationDataRecord board init stored newNormals
          faceLayoutLookupIndex newFaceToLEDLookup count) = true ∧
    SettingsManager.checkValid (SettingsManager.programDefaultsRecord board init) = true := by
  refine ⟨?_, ?_, ?_, ?_, ?_, ?_⟩ <;>
    simp_all [SettingsManager.checkValid, SettingsManager.programDesignAndColorRecord,
      SettingsManager.programCurrentBehaviorRecord, SettingsManager.programNameRecord,
      SettingsManager.programDefaultParametersRecord, SettingsManager.setDefaultParameters,
      SettingsManager.programCalibrationDataRecord, SettingsManager.programDefaultsRecord,
      SettingsManager.setDefaults, SettingsManager.setDefaultCalibrationData]

/-- Witness for C8 (amended) at a concrete valid stored record. -/
theorem facade_records_valid_when_stored_valid_witness :
    SettingsManager.checkValid sampleValidSettings = true ∧
      (SettingsManager.checkValid
          (SettingsManager.programDesignAndColorRecord sampleValidSettings 1) = true ∧
        SettingsManager.checkValid
          (SettingsManager.programCurrentBehaviorRecord sampleValidSettings 1) = true ∧
        SettingsManager.checkValid
          (SettingsManager.programNameRecord sampleValidSettings [65]) = true ∧
        SettingsManager.checkValid
          (SettingsManager.programDefaultParametersRecord
            ⟨0, [], []⟩ erasedSettings sampleValidSettings) = true ∧
        SettingsManager.checkValid
          (SettingsManager.programCalibrationDataRecord
            ⟨0, [], []⟩ erasedSettings sampleValidSettings [] 0 [] 0) = true ∧
        SettingsManager.checkValid
          (SettingsManager.programDefaultsRecord ⟨0, [], []⟩ erasedSettings) = true) :=
  ⟨by decide,
    facade_records_valid_when_stored_valid ⟨0, [], []⟩ erasedSettings sampleValidSettings
      [65] 1 1 [] 0 [] 0 (by decide)⟩

/-- Counterexample for C8 as stated: from a stored record whose version is the
stale value 2, `programDesignAndColor` builds a record that still carries
version 2 and invalid validity (`checkValid` is false), and its commit runs to
a successful completion callback — the facade does construct and commit an
invalid-version record. -/
theorem facade_commits_stale_version_record :
    (SettingsManager.programDesignAndColorRecord staleVersionSettings 1).version = 2 ∧
    SettingsManager.checkValid
        (SettingsManager.programDesignAndColorRecord staleVersionSettings 1) = false ∧
    (SettingsManager.programDesignAndColorRun staleVersionSettings 1 true true).1.contains
        (Ev.userCallback true) = true ∧
    (SettingsManager.programDesignAndColorRun staleVersionSettings 1 true true).2 =
      SettingsManager.programDesignAndColorRecord staleVersionSettings 1 := by
  refine ⟨rfl, by decide, by decide, rfl⟩

/-- C7 amended: for every record R with valid markers and version, if the
`writeToFlash` commit reports success then the settings region holds a record
equal to R in every field and the accessor `getSettings` returns it; for an
invalid R the commit can still succeed, but the accessor then reports the
explicit invalid result rather than R (see the counterexample). -/
theorem writeToFlash_roundtrip
    (sourceSettings stored : SettingsRecord) (eraseOk writeOk : Bool)
    (hv : SettingsManager.checkValid sourceSettings = true)
    (hok : Ev.userCallback true ∈
      (SettingsManager.writeToFlashRun sourceSettings stored eraseOk writeOk).1) :
    (SettingsManager.writeToFlashRun sourceSettings stored eraseOk writeOk).2 =
        sourceSettings ∧
    SettingsManager.getSettings
        (SettingsManager.writeToFlashRun sourceSettings stored eraseOk writeOk).2 =
      some sourceSettings := by
  cases eraseOk <;> cases writeOk <;>
    simp_all [SettingsManager.writeToFlashRun, SettingsManager.writeToFlashRunWith,
      SettingsManager.getSettings]

/-- Witness for C7 (amended) at a concrete valid record with both flash
operations succeeding. -/
theorem writeToFlash_roundtrip_witness :
    (SettingsManager.checkValid sampleValidSettings = true ∧
        Ev.userCallback true ∈
          (SettingsManager.writeToFlashRun sampleValidSettings erasedSettings true true).1) ∧
      ((SettingsManager.writeToFlashRun sampleValidSettings erasedSettings true true).2 =
          sampleValidSettings ∧
        SettingsManager.getSettings
            (SettingsManager.writeToFlashRun sampleValidSettings erasedSettings true true).2 =
          some sampleValidSettings) :=
  ⟨⟨by decide, by decide⟩,
    writeToFlash_roundtrip sampleValidSettings erasedSettings true true (by decide) (by decide)⟩

/-- The page count of the erase span covering settings plus profile, as
computed by `programFlash`. -/
def pagesFor (pageSize sizeofSettings profileSize : Nat) : Nat :=
  Flash.bytesToPages pageSize (Flash.getFlashByteSize pageSize (profileSize + sizeofSettings))

/-- A plain terminal callback recording only the reported outcome. -/
def kcb : Bool → List Ev := fun result => [Ev.userCallback result]

/-- The event trace of `programSettings` (flash.cpp). -/
def programSettingsTrace (usable pageSize sizeofSettings : Nat)
    (newSettings : SettingsRecord)
    (settingsAllocOk profileValid profileAllocOk : Bool)
    (heapJunk defaultProfile : List Byte) (st : Flash.FlashRegions)
    (eraseOk writeSettingsOk writeProfileOk refreshOk : Bool) : List Ev :=
  (Flash.programSettingsRun usable pageSize sizeofSettings newSettings settingsAllocOk
    profileValid profileAllocOk heapJunk defaultProfile st eraseOk writeSettingsOk
    writeProfileOk refreshOk).2.1

/-- C3: once the capacity check passes, a commit issues its flash operations
in the order erase, settings write, profile write, where each write is issued
only when the preceding operation succeeded; each operation occurs at most
once (no retry), and the terminal callback is invoked exactly once with
`false` as soon as any step fails (and with the profile-write result when all
steps ran). -/
theorem programFlash_step_ordering
    (usable pageSize sizeofSettings profileSize : Nat)
    (eraseOk writeSettingsOk writeProfileOk : Bool) (k : Bool → List Ev)
    (hcap : profileSize < usable) :
    (Flash.programFlash usable pageSize sizeofSettings profileSize eraseOk
        writeSettingsOk writeProfileOk k).1 = true ∧
    (Flash.programFlash usable pageSize sizeofSettings profileSize eraseOk
        writeSettingsOk writeProfileOk k).2 =
      [Ev.notifyBegin, Ev.eraseFlash (pagesFor pageSize sizeofSettings profileSize)] ++
        (if eraseOk then
          Ev.writeSettings :: (if writeSettingsOk then [Ev.writeProfile] else [])
        else []) ++
        [Ev.notifyEnd] ++ k (eraseOk && writeSettingsOk && writeProfileOk) := by
  cases eraseOk <;> cases writeSettingsOk <;> cases writeProfileOk <;>
    simp [Flash.programFlash, pagesFor, hcap]

/-- Witness for C3 at concrete sizes with all three operations succeeding. -/
theorem programFlash_step_ordering_witness :
    (9:Nat) < 100 ∧
      ((Flash.programFlash 100 8 8 9 true true true kcb).1 = true ∧
        (Flash.programFlash 100 8 8 9 true true true kcb).2 =
          [Ev.notifyBegin, Ev.eraseFlash 3, Ev.writeSettings, Ev.writeProfile,
            Ev.notifyEnd, Ev.userCallback true]) :=
  ⟨by decide, programFlash_step_ordering 100 8 8 9 true true true kcb (by decide)⟩

/-- C2: `programFlash` checks capacity as `usableBytes > profileSize`
(flash.cpp line 346), ignoring the `sizeof(Settings)` it adds to the erase
span just below. At usableBytes = 10, profileSize = 9, sizeof(Settings) = 8
the data does not fit (9 + 8 > 10), yet the commit proceeds: it returns true,
issues the erase and runs the full write chain, instead of reporting
NoCapacity with no erase. (A NoCapacity return happens only when
profileSize alone reaches usableBytes, as the last conjunct shows.) -/
theorem programFlash_capacity_check_ignores_settings_size :
    9 + 8 > 10 ∧
    (Flash.programFlash 10 8 8 9 true true true kcb).1 = true ∧
    (Flash.programFlash 10 8 8 9 true true true kcb).2.contains (Ev.eraseFlash 3) = true ∧
    (Flash.programFlash 10 8 8 10 true true true kcb).1 = false ∧
    (Flash.programFlash 10 8 8 10 true true true kcb).2 = [] := by
  refine ⟨by decide, rfl, by decide, rfl, rfl⟩

/-- A commit of `programSettings` over a valid stored profile of bytes
[1, 2, 3], with the staging malloc returning a block whose previous heap
contents are [0, 0, 0]; every flash operation succeeds. Used to exhibit the
missing profile copy (C1). -/
def junkProfileRun : Bool × List Ev × Flash.FlashRegions :=
  Flash.programSettingsRun 100 8 8 sampleValidSettings true true true [0, 0, 0] [9, 9]
    { settingsRegion := some sampleValidSettings, profileRegion := some [1, 2, 3] }
    true true true true

/-- C1: flash.cpp `programSettings` mallocs the profile staging buffer
(line 270) but never copies the current profile into it — despite its own
comment "Make a copy of the profile, if possible" — so a settings-only commit
over a valid profile writes the arbitrary prior heap contents of that buffer
to the profile region. Here the commit reports success, yet the profile
region afterwards holds the junk [0, 0, 0] and not the previously stored
[1, 2, 3]. When the stored profile is invalid, a synthesized default profile
is written, as the claim states (last conjunct, default profile [9, 9]). -/
theorem programSettings_writes_heap_junk_over_valid_profile :
    junkProfileRun.1 = true ∧
    junkProfileRun.2.1.contains (Ev.userCallback true) = true ∧
    junkProfileRun.2.2.profileRegion = some [0, 0, 0] ∧
    decide (junkProfileRun.2.2.profileRegion = some [1, 2, 3]) = false ∧
    (Flash.programSettingsRun 100 8 8 sampleValidSettings true false true [0, 0, 0] [9, 9]
        { settingsRegion := some sampleValidSettings, profileRegion := some [1, 2, 3] }
        true true true true).2.2.profileRegion = some [9, 9] := by
  refine ⟨rfl, by decide, rfl, by decide, rfl⟩

/-- C4 amended, covering both commit paths. On the `programSettings` path the
begin notification is delivered after the staging buffers are allocated, not
before; it precedes the erase, the end notification follows the last flash
operation, and both buffer releases and the terminal callback come after the
end notification. On the `writeToFlash` path the begin notification is the
first event (before staging), and the end notification again follows the last
flash operation (and the buffer release) and precedes the terminal callback
`k`. On both paths the begin/end pair brackets all flash operations of the
whole commit, not each individual hardware operation, and on both paths the
end notification comes before the terminal callback, not after it. -/
theorem commit_notification_bracket
    (usable pageSize sizeofSettings : Nat) (newSettings : SettingsRecord)
    (profileValid profileAllocOk : Bool) (heapJunk defaultProfile : List Byte)
    (st : Flash.FlashRegions) (eraseOk writeSettingsOk writeProfileOk refreshOk : Bool)
    (sourceSettings stored : SettingsRecord) (eraseOkW writeOkW : Bool)
    (k : Bool → List Ev)
    (hcap : (if profileValid && profileAllocOk then heapJunk.length
        else defaultProfile.length) < usable) :
    (programSettingsTrace usable pageSize sizeofSettings newSettings true profileValid
        profileAllocOk heapJunk defaultProfile st eraseOk writeSettingsOk writeProfileOk
        refreshOk =
      (if profileValid && profileAllocOk then [Ev.allocSettings, Ev.allocProfile]
        else [Ev.allocSettings, Ev.createDefaultProfile]) ++
      [Ev.notifyBegin,
        Ev.eraseFlash (pagesFor pageSize sizeofSettings
          (if profileValid && profileAllocOk then heapJunk.length
            else defaultProfile.length))] ++
      (if eraseOk then
        Ev.writeSettings :: (if writeSettingsOk then [Ev.writeProfile] else [])
      else []) ++
      [Ev.notifyEnd, Ev.freeSettings,
        (if profileValid && profileAllocOk then Ev.freeProfileHeap
          else Ev.freeProfileDefault),
        Ev.userCallback ((eraseOk && writeSettingsOk && writeProfileOk) && refreshOk)]) ∧
    (SettingsManager.writeToFlashRunWith sourceSettings stored eraseOkW writeOkW k).1 =
      [Ev.notifyBegin, Ev.allocSettings, Ev.eraseFlash SETTINGS_PAGE_COUNT] ++
        (if eraseOkW then [Ev.writeSettings] else []) ++
        [Ev.freeSettings, Ev.notifyEnd] ++ k (eraseOkW && writeOkW) := by
  constructor
  · cases profileValid <;> cases profileAllocOk <;>
      cases eraseOk <;> cases writeSettingsOk <;> cases writeProfileOk <;>
      simp_all [programSettingsTrace, Flash.programSettingsRun, Flash.programFlash, pagesFor]
  · cases eraseOkW <;> cases writeOkW <;>
      simp [SettingsManager.writeToFlashRunWith]

/-- Witness for C4 (amended) at concrete sizes with all flash operations
succeeding: valid profile and successful allocation on the `programSettings`
path, a valid record on the `writeToFlash` path. -/
theorem commit_notification_bracket_witness :
    (3:Nat) < 100 ∧
      (programSettingsTrace 100 8 8 sampleValidSettings true true true [0, 0, 0] [9, 9]
          { settingsRegion := none, profileRegion := none } true true true true =
        [Ev.allocSettings, Ev.allocProfile, Ev.notifyBegin, Ev.eraseFlash 2,
          Ev.writeSettings, Ev.writeProfile, Ev.notifyEnd, Ev.freeSettings,
          Ev.freeProfileHeap, Ev.userCallback true] ∧
      (SettingsManager.writeToFlashRunWith sampleValidSettings erasedSettings true true
          kcb).1 =
        [Ev.notifyBegin, Ev.allocSettings, Ev.eraseFlash 1, Ev.writeSettings,
          Ev.freeSettings, Ev.notifyEnd, Ev.userCallback true]) :=
  ⟨by decide,
    commit_notification_bracket 100 8 8 sampleValidSettings true true [0, 0, 0]
      [9, 9] { settingsRegion := none, profileRegion := none } true true true true
      sampleValidSettings erasedSettings true true kcb (by decide)⟩

/-- Counterexample for C4 as stated, at concrete commits on both paths: on
the `programSettings` path a staging allocation occurs strictly before the
first begin notification, and the end notification occurs strictly before the
terminal callback; on the `writeToFlash` path the end notification likewise
occurs strictly before the terminal callback — so begin does not precede
staging and end does not follow the terminal callback. -/
theorem programSettings_notifications_not_bracketing_staging :
    ((programSettingsTrace 100 8 8 sampleValidSettings true true true [0, 0, 0] [9, 9]
          { settingsRegion := none, profileRegion := none } true true true
          true).takeWhile (fun x => !(x == Ev.notifyBegin))).contains Ev.allocSettings =
      true ∧
    ((programSettingsTrace 100 8 8 sampleValidSettings true true true [0, 0, 0] [9, 9]
          { settingsRegion := none, profileRegion := none } true true true
          true).takeWhile (fun x => !(x == Ev.userCallback true))).contains Ev.notifyEnd =
      true ∧
    ((SettingsManager.writeToFlashRun sampleValidSettings erasedSettings true
          true).1.takeWhile (fun x => !(x == Ev.userCallback true))).contains Ev.notifyEnd =
      true := by
  refine ⟨by decide, by decide, by decide⟩

/-- C5 amended: on every commit that passes the capacity check, each staging
buffer is allocated exactly once and released exactly once, with the matching
release function (free for the malloc-ed copy, destroyDefault for a
synthesized default), and the releases happen in the terminal phase of the
commit — right after the end notification and before the user callback — on
all four flash exit paths (success, erase failure, settings-write failure,
profile-write failure). The capacity-check early exit, however, returns false
with the staged buffers still allocated and never released (see the
counterexample). -/
theorem programSettings_buffer_release_on_flash_paths
    (usable pageSize sizeofSettings : Nat) (newSettings : SettingsRecord)
    (profileValid profileAllocOk : Bool) (heapJunk defaultProfile : List Byte)
    (st : Flash.FlashRegions) (eraseOk writeSettingsOk writeProfileOk refreshOk : Bool)
    (hcap : (if profileValid && profileAllocOk then heapJunk.length
        else defaultProfile.length) < usable) :
    (programSettingsTrace usable pageSize sizeofSettings newSettings true profileValid
        profileAllocOk heapJunk defaultProfile st eraseOk writeSettingsOk writeProfileOk
        refreshOk).count Ev.allocSettings = 1 ∧
    (programSettingsTrace usable pageSize sizeofSettings newSettings true profileValid
        profileAllocOk heapJunk defaultProfile st eraseOk writeSettingsOk writeProfileOk
        refreshOk).count Ev.freeSettings = 1 ∧
    (programSettingsTrace usable pageSize sizeofSettings newSettings true profileValid
        profileAllocOk heapJunk defaultProfile st eraseOk writeSettingsOk writeProfileOk
        refreshOk).count (if profileValid && profileAllocOk then Ev.allocProfile
        else Ev.createDefaultProfile) = 1 ∧
    (programSettingsTrace usable pageSize sizeofSettings newSettings true profileValid
        profileAllocOk heapJunk defaultProfile st eraseOk writeSettingsOk writeProfileOk
        refreshOk).count (if profileValid && profileAllocOk then Ev.freeProfileHeap
        else Ev.freeProfileDefault) = 1 ∧
    (programSettingsTrace usable pageSize sizeofSettings newSettings true profileValid
        profileAllocOk heapJunk defaultProfile st eraseOk writeSettingsOk writeProfileOk
        refreshOk).count (if profileValid && profileAllocOk then Ev.freeProfileDefault
        else Ev.freeProfileHeap) = 0 ∧
    (programSettingsTrace usable pageSize sizeofSettings newSettings true profileValid
        profileAllocOk heapJunk defaultProfile st eraseOk writeSettingsOk writeProfileOk
        refreshOk).drop
        ((programSettingsTrace usable pageSize sizeofSettings newSettings true profileValid
          profileAllocOk heapJunk defaultProfile st eraseOk writeSettingsOk writeProfileOk
          refreshOk).length - 4) =
      [Ev.notifyEnd, Ev.freeSettings,
        (if profileValid && profileAllocOk then Ev.freeProfileHeap
          else Ev.freeProfileDefault),
        Ev.userCallback ((eraseOk && writeSettingsOk && writeProfileOk) && refreshOk)] := by
  cases profileValid <;> cases profileAllocOk <;>
    cases eraseOk <;> cases writeSettingsOk <;> cases writeProfileOk <;>
    simp_all [programSettingsTrace, Flash.programSettingsRun, Flash.programFlash, pagesFor]

/-- Witness for C5 (amended) at a concrete commit that fails at the
settings-write step: the buffers are still allocated once and released once,
in the terminal phase, with the callback reporting false. -/
theorem programSettings_buffer_release_witness :
    (3:Nat) < 100 ∧
      ((programSettingsTrace 100 8 8 sampleValidSettings true true true [0, 0, 0] [9, 9]
          { settingsRegion := none, profileRegion := none } true false true
          true).count Ev.allocSettings = 1 ∧
        (programSettingsTrace 100 8 8 sampleValidSettings true true true [0, 0, 0] [9, 9]
          { settingsRegion := none, profileRegion := none } true false true
          true).count Ev.freeSettings = 1 ∧
        (programSettingsTrace 100 8 8 sampleValidSettings true true true [0, 0, 0] [9, 9]
          { settingsRegion := none, profileRegion := none } true false true
          true).count Ev.allocProfile = 1 ∧
        (programSettingsTrace 100 8 8 sampleValidSettings true true true [0, 0, 0] [9, 9]
          { settingsRegion := none, profileRegion := none } true false true
          true).count Ev.freeProfileHeap = 1 ∧
        (programSettingsTrace 100 8 8 sampleValidSettings true true true [0, 0, 0] [9, 9]
          { settingsRegion := none, profileRegion := none } true false true
          true).count Ev.freeProfileDefault = 0 ∧
        (programSettingsTrace 100 8 8 sampleValidSettings true true true [0, 0, 0] [9, 9]
            { settingsRegion := none, profileRegion := none } true false true true).drop
            ((programSettingsTrace 100 8 8 sampleValidSettings true true true [0, 0, 0]
              [9, 9] { settingsRegion := none, profileRegion := none } true false true
              true).length - 4) =
          [Ev.notifyEnd, Ev.freeSettings, Ev.freeProfileHeap, Ev.userCallback false]) :=
  ⟨by decide,
    programSettings_buffer_release_on_flash_paths 100 8 8 sampleValidSettings true true
      [0, 0, 0] [9, 9] { settingsRegion := none, profileRegion := none } true false true
      true (by decide)⟩

/-- Counterexample for C5 as stated: when the capacity check fails
(usableBytes = 0), `programSettings` exits reporting false with both staging
buffers already allocated and no release event ever emitted — an exit path of
the commit that leaves the staging buffers unreleased. -/
theorem programSettings_capacity_exit_leaks_buffers :
    (Flash.programSettingsRun 0 8 8 sampleValidSettings true true true [] []
        { settingsRegion := none, profileRegion := none } true true true true).1 = false ∧
    programSettingsTrace 0 8 8 sampleValidSettings true true true [] []
        { settingsRegion := none, profileRegion := none } true true true true =
      [Ev.allocSettings, Ev.allocProfile] ∧
    (programSettingsTrace 0 8 8 sampleValidSettings true true true [] []
        { settingsRegion := none, profileRegion := none } true true true
        true).count Ev.freeSettings = 0 ∧
    (programSettingsTrace 0 8 8 sampleValidSettings true true true [] []
        { settingsRegion := none, profileRegion := none } true true true
        true).count Ev.freeProfileHeap = 0 ∧
    (programSettingsTrace 0 8 8 sampleValidSettings true true true [] []
        { settingsRegion := none, profileRegion := none } true true true
        true).count Ev.freeProfileDefault = 0 := by
  refine ⟨rfl, rfl, by decide, by decide, by decide⟩

/-- Counterexample for C7 as stated: committing the stale-version record
succeeds (the completion callback reports true), yet the subsequent read
through the accessor returns the explicit invalid result, not a record equal
to the committed one. -/
theorem writeToFlash_roundtrip_fails_for_invalid_record :
    (SettingsManager.writeToFlashRun staleVersionSettings erasedSettings true true).1.contains
        (Ev.userCallback true) = true ∧
    SettingsManager.getSettings
        (SettingsManager.writeToFlashRun staleVersionSettings erasedSettings true true).2 =
      none ∧
    decide (SettingsManager.getSettings
        (SettingsManager.writeToFlashRun staleVersionSettings erasedSettings true true).2 =
      some staleVersionSettings) = false := by
  refine ⟨by decide, rfl, by decide⟩

end DiceFirmware
